import Mathlib

/-!
Shallow embedding of the DDPG training core of `src/garage/tf/algos/ddpg.py`
(class `DDPG`): the regression-target computation and in-place reward scaling
of `optimize_policy` (lines 356-397), the hyperparameter storage performed by
`__init__` (lines 60-136), the target-noise clipping (lines 381-385), and the
training-loop orchestration of `train` / `train_once` (lines 269-354).

Real-valued quantities (rewards, Q-values, losses, hyperparameters such as
`discount` and `reward_scale`) are modelled over `ℚ`, the usual exact
idealisation of the float arithmetic the code performs with numpy/TF scalars.
Neural networks (policy, Q-function) are external function approximators; their
outputs enter the model as free inputs (`target_qvals`, per-step loss values),
exactly as `optimize_policy` consumes them.
-/

namespace GarageDDPG

/-! ## `optimize_policy` numeric core (ddpg.py lines 366-390)

The code samples a batch, reshapes `rewards` and `terminals` to column
vectors, scales the rewards in place (`rewards *= self._reward_scale`,
line 375), and computes elementwise

  `ys = rewards + (1.0 - terminals) * self._discount * target_qvals`  (line 390).
-/

/-- Elementwise combination of three equal-length batch arrays, the shape of
numpy broadcasting over a batch of transitions.  Extra elements of a longer
array are dropped (batch arrays in the code always have equal length). -/
def zipWith3 (f : ℚ → ℚ → ℚ → ℚ) : List ℚ → List ℚ → List ℚ → List ℚ
  | a :: as, b :: bs, c :: cs => f a b c :: zipWith3 f as bs cs
  | _, _, _ => []

/-- The per-transition regression target of `optimize_policy`: the reward is
first scaled in place by `reward_scale` (line 375), then
`y = reward + (1 - terminal) * discount * target_q` (line 390). -/
def regressionTarget (discount reward_scale reward terminal target_q : ℚ) : ℚ :=
  reward * reward_scale + (1 - terminal) * discount * target_q

/-- The batch of regression targets `ys` computed by `optimize_policy`
(lines 375 and 390) from the sampled rewards, terminals and the target
Q-network outputs `target_qvals`. -/
def computeYs (discount reward_scale : ℚ)
    (rewards terminals target_qvals : List ℚ) : List ℚ :=
  zipWith3 (regressionTarget discount reward_scale) rewards terminals target_qvals

/-! ## Target-action noise clipping (ddpg.py lines 380-385) -/

/-- `np.clip(x, lo, hi)`: numpy applies the lower bound first, then the upper
bound (`minimum(maximum(x, lo), hi)`). -/
def npClip (x lo hi : ℚ) : ℚ := min (max x lo) hi

/-- The noise added to the target policy's proposed action in
`optimize_policy` (lines 381-385): a Gaussian draw `noiseSample`, hard-clipped
to `[-clip, clip]` where `clip` is `self._exploration_policy_clip`. -/
def clippedNoise (clip noiseSample : ℚ) : ℚ := npClip noiseSample (-clip) clip

/-- `target_actions += noise` (line 385), per component. -/
def targetActionWithNoise (clip action noiseSample : ℚ) : ℚ :=
  action + clippedNoise clip noiseSample

/-! ## `DDPG.__init__` hyperparameter storage (ddpg.py lines 60-136)

`__init__` performs no validation: it stores every numeric hyperparameter on
the instance unchanged and returns.  Line 123 assigns the attribute
`self._exploration_policy_clip = exploration_policy_clip`; the next line
(124) rebinds the *local* name to the one-element tuple `(0.5,)`, which is
dead code: the attribute was already assigned.  The tuple is modelled as a
one-element list. -/

/-- The numeric constructor arguments of `DDPG.__init__`. -/
structure ConfigArgs where
  steps_per_epoch : ℕ
  n_train_steps : ℕ
  start_steps : ℕ
  buffer_batch_size : ℕ
  min_buffer_size : ℕ
  target_update_tau : ℚ
  discount : ℚ
  reward_scale : ℚ
  exploration_policy_sigma : ℚ
  exploration_policy_clip : ℚ
  deriving DecidableEq

/-- The numeric attributes stored on the `DDPG` instance by `__init__`. -/
structure DDPGAttrs where
  tau : ℚ
  min_buffer_size : ℕ
  start_steps : ℕ
  steps_per_epoch : ℕ
  n_train_steps : ℕ
  buffer_batch_size : ℕ
  discount : ℚ
  reward_scale : ℚ
  exploration_policy_sigma : ℚ
  exploration_policy_clip : ℚ
  deriving DecidableEq

/-- `DDPG.__init__` (lines 60-136), restricted to its numeric hyperparameters.
It is a total function: no configuration check is performed anywhere in the
body, so every argument combination yields an instance.  The local rebinding
`exploration_policy_clip = 0.5,` of line 124 happens after the attribute
assignment of line 123 and is therefore dead. -/
def ddpgInit (args : ConfigArgs) : DDPGAttrs :=
  let exploration_policy_clip := args.exploration_policy_clip
  -- line 123: self._exploration_policy_clip = exploration_policy_clip
  let attr_exploration_policy_clip := exploration_policy_clip
  -- line 124: exploration_policy_clip = 0.5,   (local rebound to the tuple (0.5,))
  let exploration_policy_clip : List ℚ := [1/2]
  { tau := args.target_update_tau
    min_buffer_size := args.min_buffer_size
    start_steps := args.start_steps
    steps_per_epoch := args.steps_per_epoch
    n_train_steps := args.n_train_steps
    buffer_batch_size := args.buffer_batch_size
    discount := args.discount
    reward_scale := args.reward_scale
    exploration_policy_sigma := args.exploration_policy_sigma
    exploration_policy_clip := attr_exploration_policy_clip }

/-! ## Replay-buffer effect of `optimize_policy` (ddpg.py lines 366-375)

The replay buffer implementation is not part of the analysed sources; only
its interface (`sample_transitions`, `n_transitions_stored`,
`add_episode_batch`) is called.  Modelled from the spec: §3 states that
stored transitions are "Owned by ReplayBuffer; referenced (not copied) during
sampling", so `sample_transitions` hands `optimize_policy` references into
the stored arrays.  Under that model the in-place statement
`rewards *= self._reward_scale` (line 375) writes through the reference: each
stored reward whose index was sampled is multiplied by `reward_scale`; no
other statement of `optimize_policy` writes to the sampled arrays. -/

/-- The per-field storage of the replay buffer (one entry per stored
transition; observation/action vectors abstracted to one rational each, their
contents are never touched by `optimize_policy`). -/
structure BufferState where
  observations : List ℚ
  actions : List ℚ
  rewards : List ℚ
  next_observations : List ℚ
  terminals : List ℚ
  deriving DecidableEq

/-- Write-back of the in-place scaling `rewards *= reward_scale` (line 375)
through the referenced storage: position `i` of the reward array is scaled
exactly when `i` was among the sampled indices. -/
def scaleRewardsAt (scale : ℚ) (idx : List ℕ) : ℕ → List ℚ → List ℚ
  | _, [] => []
  | i, r :: rs => (if i ∈ idx then r * scale else r) :: scaleRewardsAt scale idx (i + 1) rs

/-- The effect of one `optimize_policy` call on the replay buffer's stored
transitions, under the spec's reference (no-copy) sampling model: the rewards
at the sampled indices `idx` are scaled in place by `reward_scale`
(line 375); observations, actions, next observations and terminals are only
read. -/
def optimizePolicyBufferEffect (reward_scale : ℚ) (idx : List ℕ)
    (b : BufferState) : BufferState :=
  { b with rewards := scaleRewardsAt reward_scale idx 0 b.rewards }

/-! ## Training loop (`DDPG.train`, lines 269-316, and `DDPG.train_once`,
lines 318-354)

`train` iterates `runner.step_epochs()` (one pass per epoch) and, inside,
`steps_per_epoch` sampling cycles.  Each cycle: select the acting policy by
`runner.step_itr >= self._start_steps` (line 289: exploration policy past the
threshold, a fresh `UniformRandomPolicy` below it), obtain episodes, add them
to the replay buffer (line 298), call `train_once` when
`runner.total_env_steps >= self._start_steps` (lines 301-302), run the
evaluation at the first cycle of the epoch when the buffer holds at least
`min_buffer_size` transitions (lines 304-313, setting `last_returns`), and
increment `runner.step_itr` (line 314).  Finally `train` returns
`np.mean(last_returns)` (line 316).

The runner and sampler are external: `step_itr` is a cycle counter owned by
the runner but incremented only by this loop (one increment per cycle, line
314, starting from 0 for a fresh run), and `total_env_steps` is the runner's
cumulative count of environment steps, which grows by the number of
transitions each `obtain_episodes` call collects.  The number of transitions
collected at a cycle is a free input `episodeSteps`, indexed by `step_itr`;
every collected transition is added to the (append-only) replay buffer, so
`n_transitions_stored` grows by the same amount.  The evaluation returns
produced by `log_performance` at a given `step_itr` are a free input
`evalReturns`. -/

/-- The per-call outputs `(qf_loss, y_s, qval, policy_loss)` of
`optimize_policy` (line 330); their numeric values come from the networks and
enter the model as a free stream indexed by the global count of
`optimize_policy` calls.  The batch arrays `y_s` and `qval` are abstracted to
the single logged entry each call appends. -/
structure OptOut where
  qf_loss : ℚ
  ys : ℚ
  qval : ℚ
  policy_loss : ℚ
  deriving DecidableEq

/-- The rolling statistics accumulators created in `__init__`
(lines 99-102): `_episode_policy_losses`, `_episode_qf_losses`, `_epoch_ys`,
`_epoch_qs`. -/
structure Stats where
  episode_policy_losses : List ℚ
  episode_qf_losses : List ℚ
  epoch_ys : List ℚ
  epoch_qs : List ℚ
  deriving DecidableEq

/-- The accumulators as `__init__` creates them: four empty lists. -/
def initStats : Stats := ⟨[], [], [], []⟩

/-- One `optimize_policy` call's appends inside `train_once`
(lines 332-335). -/
def appendStats (s : Stats) (o : OptOut) : Stats :=
  { episode_policy_losses := s.episode_policy_losses ++ [o.policy_loss]
    episode_qf_losses := s.episode_qf_losses ++ [o.qf_loss]
    epoch_ys := s.epoch_ys ++ [o.ys]
    epoch_qs := s.epoch_qs ++ [o.qval] }

/-- The hyperparameters the training loop consults. -/
structure Hypers where
  steps_per_epoch : ℕ
  n_train_steps : ℕ
  start_steps : ℕ
  min_buffer_size : ℕ
  deriving DecidableEq

/-- `DDPG.train_once` (lines 318-335) acting on the pair (global
`optimize_policy` call count, statistics accumulators): `n_train_steps`
iterations, each of which calls `optimize_policy` and appends its outputs
exactly when the buffer holds at least `min_buffer_size` transitions
(lines 327-335).  The trailing `tabular.record` block (lines 337-354) only
reads the accumulators — it never clears them — so it has no state effect. -/
def trainOnce (h : Hypers) (outs : ℕ → OptOut) (stored : ℕ)
    (p : ℕ × Stats) : ℕ × Stats :=
  (List.range h.n_train_steps).foldl
    (fun q _ =>
      if h.min_buffer_size ≤ stored then (q.1 + 1, appendStats q.2 (outs q.1))
      else q)
    p

/-- The acting policy handed to the sampler for one cycle. -/
inductive ActingPolicy where
  | uniformRandom
  | exploration
  deriving DecidableEq

/-- Acting-policy selection of `train` (lines 287-295): the exploration
policy when `runner.step_itr >= self._start_steps`, otherwise a fresh
`UniformRandomPolicy`. -/
def selectPolicy (h : Hypers) (step_itr : ℕ) : ActingPolicy :=
  if h.start_steps ≤ step_itr then .exploration else .uniformRandom

/-- The mutable state the training loop threads: the runner's cycle counter
`step_itr` and cumulative `total_env_steps`, the buffer's
`n_transitions_stored`, the global count of `optimize_policy` calls, the
`last_returns` local of `train` (the list `log_performance` returned at the
most recent evaluation, `None` before any evaluation), the statistics
accumulators, and the trace of acting policies selected so far (one per
cycle, in order). -/
structure LoopState where
  step_itr : ℕ
  total_env_steps : ℕ
  n_transitions_stored : ℕ
  optimize_calls : ℕ
  last_returns : Option (List ℚ)
  stats : Stats
  policies : List ActingPolicy
  deriving DecidableEq

/-- The loop state of a fresh run. -/
def initState : LoopState :=
  { step_itr := 0, total_env_steps := 0, n_transitions_stored := 0
    optimize_calls := 0, last_returns := none, stats := initStats
    policies := [] }

/-- One sampling cycle of `train` (lines 286-314): policy selection by
`step_itr` (line 289), episode collection and buffer insertion (the
`newSteps` freshly collected transitions, lines 290-298), the `train_once`
call guarded by `total_env_steps >= start_steps` read after this cycle's
collection (lines 301-302), the first-cycle evaluation guarded by the
buffer's post-insertion size (lines 304-313), and the `step_itr` increment
(line 314). -/
def cycleStep (h : Hypers) (evalReturns : ℕ → List ℚ) (outs : ℕ → OptOut)
    (cycle newSteps : ℕ) (s : LoopState) : LoopState :=
  let pol := selectPolicy h s.step_itr
  let env := s.total_env_steps + newSteps
  let stored := s.n_transitions_stored + newSteps
  let oc :=
    if h.start_steps ≤ env then trainOnce h outs stored (s.optimize_calls, s.stats)
    else (s.optimize_calls, s.stats)
  let lr :=
    if cycle = 0 ∧ h.min_buffer_size ≤ stored then some (evalReturns s.step_itr)
    else s.last_returns
  { step_itr := s.step_itr + 1
    total_env_steps := env
    n_transitions_stored := stored
    optimize_calls := oc.1
    last_returns := lr
    stats := oc.2
    policies := s.policies ++ [pol] }

/-- One epoch of `train`: `steps_per_epoch` cycles,
`for cycle in range(self._steps_per_epoch)` (line 286). -/
def runEpoch (h : Hypers) (evalReturns : ℕ → List ℚ) (outs : ℕ → OptOut)
    (episodeSteps : ℕ → ℕ) (s : LoopState) : LoopState :=
  (List.range h.steps_per_epoch).foldl
    (fun st cycle => cycleStep h evalReturns outs cycle (episodeSteps st.step_itr) st) s

/-- The full loop of `DDPG.train` over `nEpochs` passes of
`runner.step_epochs()` (line 285), from a fresh run. -/
def runLoop (h : Hypers) (evalReturns : ℕ → List ℚ) (outs : ℕ → OptOut)
    (episodeSteps : ℕ → ℕ) (nEpochs : ℕ) : LoopState :=
  (List.range nEpochs).foldl
    (fun s _ => runEpoch h evalReturns outs episodeSteps s) initState

/-- `np.mean` of a (nonempty) list of rationals. -/
def npMeanL (l : List ℚ) : ℚ := l.sum / l.length

/-- `np.mean(last_returns)` as evaluated by the `return` of `train`
(line 316).  When `last_returns` is still `None` (no evaluation ever ran),
`np.mean(None)` raises `TypeError: unsupported operand type(s) for /:
NoneType and int` (numpy reduces the 0-d object array to `None` and then
divides by the element count); a nonempty list yields its arithmetic mean,
and `np.mean([])` yields numpy's NaN, which `ℚ` cannot represent and which
is likewise modelled as an exceptional outcome. -/
def npMean (last_returns : Option (List ℚ)) : Except String ℚ :=
  match last_returns with
  | none => .error "TypeError: unsupported operand type for /: NoneType and int"
  | some l => if l.isEmpty then .error "nan" else .ok (npMeanL l)

/-! ## Helper lemmas -/

theorem zipWith3_getElem? (f : ℚ → ℚ → ℚ → ℚ) :
    ∀ (as bs cs : List ℚ) (i : ℕ), i < as.length → i < bs.length → i < cs.length →
      ∀ (ha : i < as.length) (hb : i < bs.length) (hc : i < cs.length),
      (zipWith3 f as bs cs)[i]? = some (f as[i] bs[i] cs[i])
  | a :: as, b :: bs, c :: cs, 0, _, _, _, _, _, _ => by simp [zipWith3]
  | a :: as, b :: bs, c :: cs, i + 1, h1, h2, h3, _, _, _ => by
    simpa [zipWith3] using
      zipWith3_getElem? f as bs cs i (Nat.lt_of_succ_lt_succ h1)
        (Nat.lt_of_succ_lt_succ h2) (Nat.lt_of_succ_lt_succ h3)
        (Nat.lt_of_succ_lt_succ h1) (Nat.lt_of_succ_lt_succ h2)
        (Nat.lt_of_succ_lt_succ h3)

theorem scaleRewardsAt_one (idx : List ℕ) :
    ∀ (i : ℕ) (rs : List ℚ), scaleRewardsAt 1 idx i rs = rs
  | _, [] => rfl
  | i, r :: rs => by
    simp [scaleRewardsAt, scaleRewardsAt_one idx (i + 1) rs]

/-- The inner loop of `train_once` leaves the call counter and the
accumulators untouched when the buffer is below `min_buffer_size`. -/
theorem foldlOpt_cold (h : Hypers) (outs : ℕ → OptOut) (stored : ℕ)
    (hlt : stored < h.min_buffer_size) :
    ∀ (l : List ℕ) (p : ℕ × Stats),
      l.foldl
        (fun q _ =>
          if h.min_buffer_size ≤ stored then (q.1 + 1, appendStats q.2 (outs q.1))
          else q) p = p
  | [], _ => rfl
  | _ :: l, p => by
    rw [List.foldl_cons, if_neg (Nat.not_le.mpr hlt)]
    exact foldlOpt_cold h outs stored hlt l p

/-- The inner loop of `train_once` with a warm buffer: each iteration bumps
the call counter and appends one entry to each accumulator. -/
theorem foldlOpt_warm (h : Hypers) (outs : ℕ → OptOut) (stored : ℕ)
    (hge : h.min_buffer_size ≤ stored) :
    ∀ (l : List ℕ) (p : ℕ × Stats),
      (l.foldl
        (fun q _ =>
          if h.min_buffer_size ≤ stored then (q.1 + 1, appendStats q.2 (outs q.1))
          else q) p).1 = p.1 + l.length ∧
      ∃ t₁ t₂ t₃ t₄ : List ℚ,
        t₁.length = l.length ∧ t₂.length = l.length ∧
        t₃.length = l.length ∧ t₄.length = l.length ∧
        (l.foldl
          (fun q _ =>
            if h.min_buffer_size ≤ stored then (q.1 + 1, appendStats q.2 (outs q.1))
            else q) p).2 =
          { episode_policy_losses := p.2.episode_policy_losses ++ t₁
            episode_qf_losses := p.2.episode_qf_losses ++ t₂
            epoch_ys := p.2.epoch_ys ++ t₃
            epoch_qs := p.2.epoch_qs ++ t₄ } := by
  intro l
  induction l with
  | nil =>
    intro p
    refine ⟨rfl, [], [], [], [], rfl, rfl, rfl, rfl, ?_⟩
    simp
  | cons a l ih =>
    intro p
    rw [List.foldl_cons, if_pos hge]
    obtain ⟨hc, t₁, t₂, t₃, t₄, hl₁, hl₂, hl₃, hl₄, hst⟩ :=
      ih (p.1 + 1, appendStats p.2 (outs p.1))
    refine ⟨by rw [hc]; simp [List.length_cons]; omega,
      (outs p.1).policy_loss :: t₁, (outs p.1).qf_loss :: t₂,
      (outs p.1).ys :: t₃, (outs p.1).qval :: t₄,
      by simp [hl₁], by simp [hl₂], by simp [hl₃], by simp [hl₄], ?_⟩
    rw [hst]
    simp [appendStats]

/-- `train_once` with a cold buffer is a no-op on the counter and the
accumulators. -/
theorem trainOnce_cold (h : Hypers) (outs : ℕ → OptOut) (stored : ℕ)
    (hlt : stored < h.min_buffer_size) (p : ℕ × Stats) :
    trainOnce h outs stored p = p :=
  foldlOpt_cold h outs stored hlt (List.range h.n_train_steps) p

/-- `train_once` with a warm buffer performs exactly `n_train_steps`
`optimize_policy` calls. -/
theorem trainOnce_warm_count (h : Hypers) (outs : ℕ → OptOut) (stored : ℕ)
    (hge : h.min_buffer_size ≤ stored) (p : ℕ × Stats) :
    (trainOnce h outs stored p).1 = p.1 + h.n_train_steps := by
  have := (foldlOpt_warm h outs stored hge (List.range h.n_train_steps) p).1
  simpa [trainOnce] using this

/-- A cycle never removes transitions from the buffer. -/
theorem cycleStep_stored_mono (h : Hypers) (evalReturns : ℕ → List ℚ)
    (outs : ℕ → OptOut) (cycle newSteps : ℕ) (s : LoopState) :
    s.n_transitions_stored ≤
      (cycleStep h evalReturns outs cycle newSteps s).n_transitions_stored := by
  simp only [cycleStep]
  exact Nat.le_add_right _ _

/-- A cycle that ends with the buffer still below `min_buffer_size` performs
no `optimize_policy` call and no evaluation. -/
theorem cycleStep_cold (h : Hypers) (evalReturns : ℕ → List ℚ)
    (outs : ℕ → OptOut) (cycle newSteps : ℕ) (s : LoopState)
    (hlt : (cycleStep h evalReturns outs cycle newSteps s).n_transitions_stored <
      h.min_buffer_size) :
    (cycleStep h evalReturns outs cycle newSteps s).optimize_calls =
        s.optimize_calls ∧
      (cycleStep h evalReturns outs cycle newSteps s).last_returns =
        s.last_returns := by
  have hlt' : s.n_transitions_stored + newSteps < h.min_buffer_size := hlt
  constructor
  · show (if h.start_steps ≤ s.total_env_steps + newSteps then
        trainOnce h outs (s.n_transitions_stored + newSteps)
          (s.optimize_calls, s.stats)
      else (s.optimize_calls, s.stats)).1 = s.optimize_calls
    rw [trainOnce_cold h outs _ hlt']
    split <;> rfl
  · show (if cycle = 0 ∧ h.min_buffer_size ≤ s.n_transitions_stored + newSteps then
        some (evalReturns s.step_itr)
      else s.last_returns) = s.last_returns
    rw [if_neg]
    rintro ⟨-, hge⟩
    exact absurd hge (Nat.not_le.mpr hlt')

/-- Folding any step function that never shrinks the buffer keeps the buffer
size monotone. -/
theorem foldlLoop_mono (g : LoopState → ℕ → LoopState)
    (hm : ∀ s a, s.n_transitions_stored ≤ (g s a).n_transitions_stored) :
    ∀ (l : List ℕ) (s : LoopState),
      s.n_transitions_stored ≤ (l.foldl g s).n_transitions_stored
  | [], _ => Nat.le.refl
  | a :: l, s => Nat.le_trans (hm s a) (foldlLoop_mono g hm l (g s a))

/-- Folding any monotone step function that preserves the optimize count and
`last_returns` on every cold step preserves both along a cold run. -/
theorem foldlLoop_cold (m : ℕ) (g : LoopState → ℕ → LoopState)
    (hm : ∀ s a, s.n_transitions_stored ≤ (g s a).n_transitions_stored)
    (hc : ∀ s a, (g s a).n_transitions_stored < m →
      (g s a).optimize_calls = s.optimize_calls ∧
        (g s a).last_returns = s.last_returns) :
    ∀ (l : List ℕ) (s : LoopState), (l.foldl g s).n_transitions_stored < m →
      (l.foldl g s).optimize_calls = s.optimize_calls ∧
        (l.foldl g s).last_returns = s.last_returns
  | [], _, _ => ⟨rfl, rfl⟩
  | a :: l, s, hlt => by
    rw [List.foldl_cons] at hlt ⊢
    have hstep : (g s a).n_transitions_stored < m :=
      Nat.lt_of_le_of_lt (foldlLoop_mono g hm l (g s a)) hlt
    obtain ⟨h₁, h₂⟩ := foldlLoop_cold m g hm hc l (g s a) hlt
    obtain ⟨h₃, h₄⟩ := hc s a hstep
    exact ⟨h₁.trans h₃, h₂.trans h₄⟩

/-- One epoch never shrinks the buffer. -/
theorem runEpoch_stored_mono (h : Hypers) (evalReturns : ℕ → List ℚ)
    (outs : ℕ → OptOut) (episodeSteps : ℕ → ℕ) (s : LoopState) :
    s.n_transitions_stored ≤
      (runEpoch h evalReturns outs episodeSteps s).n_transitions_stored :=
  foldlLoop_mono _ (fun st c => cycleStep_stored_mono h evalReturns outs c
    (episodeSteps st.step_itr) st) _ s

/-- An epoch that ends with the buffer still below `min_buffer_size`
performs no `optimize_policy` call and no evaluation. -/
theorem runEpoch_cold (h : Hypers) (evalReturns : ℕ → List ℚ)
    (outs : ℕ → OptOut) (episodeSteps : ℕ → ℕ) (s : LoopState)
    (hlt : (runEpoch h evalReturns outs episodeSteps s).n_transitions_stored <
      h.min_buffer_size) :
    (runEpoch h evalReturns outs episodeSteps s).optimize_calls =
        s.optimize_calls ∧
      (runEpoch h evalReturns outs episodeSteps s).last_returns =
        s.last_returns :=
  foldlLoop_cold h.min_buffer_size _
    (fun st c => cycleStep_stored_mono h evalReturns outs c
      (episodeSteps st.step_itr) st)
    (fun st c => cycleStep_cold h evalReturns outs c
      (episodeSteps st.step_itr) st) _ s hlt

/-- A full run that ends with the buffer still below `min_buffer_size`
performed no `optimize_policy` call and no evaluation. -/
theorem runLoop_cold (h : Hypers) (evalReturns : ℕ → List ℚ)
    (outs : ℕ → OptOut) (episodeSteps : ℕ → ℕ) (nEpochs : ℕ)
    (hlt : (runLoop h evalReturns outs episodeSteps nEpochs).n_transitions_stored <
      h.min_buffer_size) :
    (runLoop h evalReturns outs episodeSteps nEpochs).optimize_calls = 0 ∧
      (runLoop h evalReturns outs episodeSteps nEpochs).last_returns = none :=
  foldlLoop_cold h.min_buffer_size _
    (fun st _ => runEpoch_stored_mono h evalReturns outs episodeSteps st)
    (fun st _ => runEpoch_cold h evalReturns outs episodeSteps st)
    (List.range nEpochs) initState hlt

/-! ## Claims -/

/-- C1: in every optimization step the regression target computed by
`optimize_policy` satisfies `y = reward + (1 - terminal) * discount *
target_q` elementwise over the sampled batch (with the reward already scaled
by `reward_scale`, line 375); in particular, for every transition with
`terminal = 1`, `y` equals the scaled reward exactly, regardless of
`target_q`. -/
theorem optimize_policy_regression_target (d rs : ℚ)
    (rewards terminals target_qvals : List ℚ) (i : ℕ)
    (h₁ : i < rewards.length) (h₂ : i < terminals.length)
    (h₃ : i < target_qvals.length) :
    (computeYs d rs rewards terminals target_qvals)[i]? =
        some (rewards[i] * rs + (1 - terminals[i]) * d * target_qvals[i]) ∧
      (terminals[i] = 1 →
        (computeYs d rs rewards terminals target_qvals)[i]? =
          some (rewards[i] * rs)) := by
  have hbase := zipWith3_getElem? (regressionTarget d rs) rewards terminals
    target_qvals i h₁ h₂ h₃ h₁ h₂ h₃
  refine ⟨hbase, fun hterm => ?_⟩
  rw [show computeYs d rs rewards terminals target_qvals =
    zipWith3 (regressionTarget d rs) rewards terminals target_qvals from rfl,
    hbase, hterm]
  unfold regressionTarget
  norm_num

/-- Witness for C1 at a concrete terminal transition: discount `1/2`,
reward scale `3`, reward `4`, terminal `1`, target Q-value `7` give
`y = 4 * 3 = 12`, independent of the target Q-value. -/
theorem optimize_policy_regression_target_witness :
    (computeYs (1/2) 3 [4] [1] [7])[0]? = some ((12 : ℚ)) := by
  have h12 : ((4 : ℚ) * 3) = 12 := by norm_num
  have := (optimize_policy_regression_target (1/2) 3 [4] [1] [7] 0
    (by decide) (by decide) (by decide)).2 (by norm_num)
  simpa [h12] using this

/-- C2 counterexample: with `discount = 0.99`, `reward_scale = 2`, the
transition `(r = 1, terminal = 0, target_q = 5)` does NOT yield
`y = 2 + 0.99 * 5 * 2 = 11.9`: `optimize_policy` scales only the reward, not
the bootstrap term. -/
theorem optimize_policy_scaling_counterexample :
    computeYs (99/100) 2 [1] [0] [5] ≠ [(119/10 : ℚ)] := by
  norm_num [computeYs, zipWith3, regressionTarget]

/-- C2 amended: with `discount = 0.99`, `reward_scale = 2`, the transition
`(r = 1, terminal = 0, target_q = 5)` yields
`y = 2 + 0.99 * 5 = 6.95`: reward scaling is applied before target
computation but multiplies only the reward term, not the discounted
bootstrap term. -/
theorem optimize_policy_scaling_value :
    computeYs (99/100) 2 [1] [0] [5] = [(139/20 : ℚ)] := by
  norm_num [computeYs, zipWith3, regressionTarget]

/-- C3: no `optimize_policy` call ever executes while the number of
transitions stored in the replay buffer is below `min_buffer_size`: for
every hyperparameter choice and every sequence of training cycles whose
cumulative stored transitions stay below `min_buffer_size` (the stored count
is monotone, so it suffices that the final count is below it), the count of
`optimize_policy` calls remains zero. -/
theorem no_optimize_below_min_buffer (h : Hypers) (evalReturns : ℕ → List ℚ)
    (outs : ℕ → OptOut) (episodeSteps : ℕ → ℕ) (nEpochs : ℕ)
    (hlt : (runLoop h evalReturns outs episodeSteps nEpochs).n_transitions_stored <
      h.min_buffer_size) :
    (runLoop h evalReturns outs episodeSteps nEpochs).optimize_calls = 0 :=
  (runLoop_cold h evalReturns outs episodeSteps nEpochs hlt).1

/-- Witness for C3: two epochs of one cycle each, one transition per cycle
and `min_buffer_size = 100`, end with 2 stored transitions and zero
`optimize_policy` calls. -/
theorem no_optimize_below_min_buffer_witness :
    (runLoop ⟨1, 3, 0, 100⟩ (fun _ => []) (fun _ => ⟨0, 0, 0, 0⟩)
        (fun _ => 1) 2).n_transitions_stored < 100 ∧
      (runLoop ⟨1, 3, 0, 100⟩ (fun _ => []) (fun _ => ⟨0, 0, 0, 0⟩)
        (fun _ => 1) 2).optimize_calls = 0 :=
  ⟨by decide,
    no_optimize_below_min_buffer ⟨1, 3, 0, 100⟩ (fun _ => [])
      (fun _ => ⟨0, 0, 0, 0⟩) (fun _ => 1) 2 (by decide)⟩

/-- C4 counterexample: a cycle at which the stored transitions already reach
`min_buffer_size` can still execute zero optimization steps, because
`train` calls `train_once` only when `total_env_steps >= start_steps`
(ddpg.py line 301).  With `steps_per_epoch = 1`, `n_train_steps = 5`,
`start_steps = 1000`, `min_buffer_size = 2` and a cycle collecting 3
transitions, the run ends with 3 ≥ 2 stored transitions yet zero
`optimize_policy` calls instead of the claimed 5. -/
theorem warm_cycle_without_optimize :
    (runLoop ⟨1, 5, 1000, 2⟩ (fun _ => []) (fun _ => ⟨0, 0, 0, 0⟩)
        (fun _ => 3) 1).n_transitions_stored ≥ 2 ∧
      (runLoop ⟨1, 5, 1000, 2⟩ (fun _ => []) (fun _ => ⟨0, 0, 0, 0⟩)
        (fun _ => 3) 1).optimize_calls = 0 := by decide

/-- C4 amended: for every training cycle at which, after this cycle's
collection, `total_env_steps` has reached `start_steps` AND the stored
transitions have reached `min_buffer_size`, exactly `n_train_steps`
`optimize_policy` calls are executed for that cycle. -/
theorem optimize_count_per_warm_cycle (h : Hypers) (evalReturns : ℕ → List ℚ)
    (outs : ℕ → OptOut) (cycle newSteps : ℕ) (s : LoopState)
    (henv : h.start_steps ≤ s.total_env_steps + newSteps)
    (hbuf : h.min_buffer_size ≤ s.n_transitions_stored + newSteps) :
    (cycleStep h evalReturns outs cycle newSteps s).optimize_calls =
      s.optimize_calls + h.n_train_steps := by
  show (if h.start_steps ≤ s.total_env_steps + newSteps then
      trainOnce h outs (s.n_transitions_stored + newSteps)
        (s.optimize_calls, s.stats)
    else (s.optimize_calls, s.stats)).1 = s.optimize_calls + h.n_train_steps
  rw [if_pos henv]
  exact trainOnce_warm_count h outs _ hbuf _

/-- Witness for C4 amended: a fresh state, one cycle collecting one
transition, `start_steps = 0`, `min_buffer_size = 1`, `n_train_steps = 2`
yields exactly 2 `optimize_policy` calls. -/
theorem optimize_count_per_warm_cycle_witness :
    (cycleStep ⟨1, 2, 0, 1⟩ (fun _ => []) (fun _ => ⟨0, 0, 0, 0⟩) 0 1
      initState).optimize_calls = 2 := by
  have := optimize_count_per_warm_cycle ⟨1, 2, 0, 1⟩ (fun _ => [])
    (fun _ => ⟨0, 0, 0, 0⟩) 0 1 initState (by decide) (by decide)
  simpa using this

/-- C5 counterexample: the acting-policy switch is keyed on the cycle
counter `runner.step_itr` (ddpg.py line 289), not on total environment
steps.  With `start_steps = 2` and 5 transitions collected per cycle, the
second cycle starts with `total_env_steps = 5 ≥ 2`, yet the code still
selects the uniform-random policy (its `step_itr` is 1 < 2); both cycles of
the run use the uniform-random policy. -/
theorem policy_selection_counterexample :
    (2 : ℕ) ≤ (cycleStep ⟨2, 1, 2, 10⟩ (fun _ => []) (fun _ => ⟨0, 0, 0, 0⟩)
        0 5 initState).total_env_steps ∧
      selectPolicy ⟨2, 1, 2, 10⟩
          (cycleStep ⟨2, 1, 2, 10⟩ (fun _ => []) (fun _ => ⟨0, 0, 0, 0⟩)
            0 5 initState).step_itr = ActingPolicy.uniformRandom ∧
      (runLoop ⟨2, 1, 2, 10⟩ (fun _ => []) (fun _ => ⟨0, 0, 0, 0⟩)
        (fun _ => 5) 1).policies =
        [ActingPolicy.uniformRandom, ActingPolicy.uniformRandom] := by decide

/-- C5 amended: each cycle appends exactly one acting-policy selection, and
that selection is the uniform-random policy precisely when the runner's
cycle counter `step_itr` (not the total environment-step count) is below
`start_steps`; otherwise it is the exploration policy wrapping the current
policy. -/
theorem policy_selection_by_step_itr (h : Hypers) (evalReturns : ℕ → List ℚ)
    (outs : ℕ → OptOut) (cycle newSteps : ℕ) (s : LoopState) :
    (cycleStep h evalReturns outs cycle newSteps s).policies =
        s.policies ++ [selectPolicy h s.step_itr] ∧
      (selectPolicy h s.step_itr = ActingPolicy.uniformRandom ↔
        s.step_itr < h.start_steps) := by
  refine ⟨rfl, ?_⟩
  by_cases hle : h.start_steps ≤ s.step_itr
  · simp [selectPolicy, hle, Nat.not_lt.mpr hle]
  · simp [selectPolicy, hle, Nat.lt_of_not_le hle]

/-- C6 counterexample: under the spec's reference (no-copy) sampling model,
the in-place statement `rewards *= self._reward_scale` (ddpg.py line 375)
mutates the stored reward of a sampled transition: with `reward_scale = 2`
and a buffer holding one transition with reward 1, the stored reward is 2
after the `optimize_policy` call, so the buffer state differs from the state
before the call. -/
theorem reward_mutation_counterexample :
    (optimizePolicyBufferEffect 2 [0] ⟨[10], [20], [1], [30], [0]⟩).rewards =
        [2] ∧
      optimizePolicyBufferEffect 2 [0] ⟨[10], [20], [1], [30], [0]⟩ ≠
        ⟨[10], [20], [1], [30], [0]⟩ := by
  constructor
  · norm_num [optimizePolicyBufferEffect, scaleRewardsAt]
  · intro hc
    have h1 : ((1 : ℚ) * 2) = 1 := by
      have := congrArg BufferState.rewards hc
      simpa [optimizePolicyBufferEffect, scaleRewardsAt] using this
    norm_num at h1

/-- C6 amended: under the spec's reference (no-copy) sampling model,
`optimize_policy` never touches the stored observations, actions, next
observations or terminals of any transition, and when `reward_scale = 1` the
buffer is entirely unchanged; the sole mutation is the in-place scaling of
the sampled rewards by `reward_scale` (line 375). -/
theorem optimize_policy_buffer_frame (scale : ℚ) (idx : List ℕ)
    (b : BufferState) :
    ((optimizePolicyBufferEffect scale idx b).observations = b.observations ∧
      (optimizePolicyBufferEffect scale idx b).actions = b.actions ∧
      (optimizePolicyBufferEffect scale idx b).next_observations =
        b.next_observations ∧
      (optimizePolicyBufferEffect scale idx b).terminals = b.terminals) ∧
      (scale = 1 → optimizePolicyBufferEffect scale idx b = b) := by
  refine ⟨⟨rfl, rfl, rfl, rfl⟩, fun hs => ?_⟩
  subst hs
  cases b
  simp [optimizePolicyBufferEffect, scaleRewardsAt_one]

/-- Witness for C6 amended: with `reward_scale = 1` a concrete one-transition
buffer is unchanged by the `optimize_policy` call. -/
theorem optimize_policy_buffer_frame_witness :
    optimizePolicyBufferEffect 1 [0] ⟨[1], [2], [3], [4], [5]⟩ =
      ⟨[1], [2], [3], [4], [5]⟩ :=
  (optimize_policy_buffer_frame 1 [0] ⟨[1], [2], [3], [4], [5]⟩).2 rfl

/-- C7 counterexample: `DDPG.__init__` performs no hyperparameter
validation.  The invalid configuration `min_buffer_size = 1 <
buffer_batch_size = 64` together with `target_update_tau = 5 ∉ (0, 1]` is
accepted: the constructor returns a usable instance that stores exactly
those invalid values, instead of raising. -/
theorem invalid_config_constructs :
    (ddpgInit ⟨20, 50, 1000, 64, 1, 5, 99/100, 1, 1/5, 1/2⟩).min_buffer_size =
        1 ∧
      (ddpgInit ⟨20, 50, 1000, 64, 1, 5, 99/100, 1, 1/5,
        1/2⟩).buffer_batch_size = 64 ∧
      (ddpgInit ⟨20, 50, 1000, 64, 1, 5, 99/100, 1, 1/5, 1/2⟩).tau = 5 ∧
      (1 : ℕ) < 64 ∧ ¬((5 : ℚ) ≤ 1) :=
  ⟨rfl, rfl, rfl, by norm_num, by norm_num⟩

/-- C7 amended: construction never fails: for every configuration, valid or
not, `__init__` returns an instance storing the given hyperparameters
unchanged and unvalidated (no `ConfigurationError` check exists anywhere in
the constructor). -/
theorem init_stores_unvalidated (args : ConfigArgs) :
    (ddpgInit args).tau = args.target_update_tau ∧
      (ddpgInit args).min_buffer_size = args.min_buffer_size ∧
      (ddpgInit args).buffer_batch_size = args.buffer_batch_size ∧
      (ddpgInit args).discount = args.discount ∧
      (ddpgInit args).reward_scale = args.reward_scale :=
  ⟨rfl, rfl, rfl, rfl, rfl⟩

/-- C8 counterexample: when the buffer never reaches `min_buffer_size`, no
evaluation ever runs, `last_returns` is still `None` at line 316, and
`return np.mean(last_returns)` raises a `TypeError` — an exception, not an
undefined/NaN-like return value.  Concretely: three epochs of two cycles,
one transition per cycle, `min_buffer_size = 50`. -/
theorem train_return_raises_counterexample :
    (runLoop ⟨2, 1, 500, 50⟩ (fun _ => []) (fun _ => ⟨0, 0, 0, 0⟩)
        (fun _ => 1) 3).n_transitions_stored < 50 ∧
      npMean (runLoop ⟨2, 1, 500, 50⟩ (fun _ => []) (fun _ => ⟨0, 0, 0, 0⟩)
          (fun _ => 1) 3).last_returns =
        Except.error
          "TypeError: unsupported operand type for /: NoneType and int" := by
  refine ⟨by decide, ?_⟩
  rw [(runLoop_cold ⟨2, 1, 500, 50⟩ (fun _ => []) (fun _ => ⟨0, 0, 0, 0⟩)
    (fun _ => 1) 3 (by decide)).2]
  rfl

/-- C8 amended: `train` returns `np.mean(last_returns)`; whenever the run
ends with the buffer still below `min_buffer_size` (so no evaluation ever
ran and `last_returns` is still `None`), that expression raises
`TypeError` (numpy's mean of `None`), i.e. `train` terminates with an
exception rather than returning a NaN-like number. -/
theorem train_return_raises_when_never_warm (h : Hypers)
    (evalReturns : ℕ → List ℚ) (outs : ℕ → OptOut) (episodeSteps : ℕ → ℕ)
    (nEpochs : ℕ)
    (hlt : (runLoop h evalReturns outs episodeSteps nEpochs).n_transitions_stored <
      h.min_buffer_size) :
    npMean (runLoop h evalReturns outs episodeSteps nEpochs).last_returns =
      Except.error
        "TypeError: unsupported operand type for /: NoneType and int" := by
  rw [(runLoop_cold h evalReturns outs episodeSteps nEpochs hlt).2]
  rfl

/-- Witness for C8 amended: a concrete cold run (two epochs of one cycle,
one transition each, `min_buffer_size = 100`) ends in the `TypeError`. -/
theorem train_return_raises_when_never_warm_witness :
    npMean (runLoop ⟨1, 4, 2000, 100⟩ (fun _ => []) (fun _ => ⟨0, 0, 0, 0⟩)
        (fun _ => 1) 2).last_returns =
      Except.error
        "TypeError: unsupported operand type for /: NoneType and int" :=
  train_return_raises_when_never_warm ⟨1, 4, 2000, 100⟩ (fun _ => [])
    (fun _ => ⟨0, 0, 0, 0⟩) (fun _ => 1) 2 (by decide)

/-- C9 counterexample: the rolling accumulators are never reset at epoch
boundaries.  With one cycle per epoch, one optimization step per cycle and
per-step policy losses 3 (epoch 1) and 7 (epoch 2), the accumulator at the
epoch-2 logging still contains epoch 1's entry: it is `[3, 7]`, so the
recorded epoch-2 average `np.mean([3, 7]) = 5` differs from the average over
epoch 2's own steps only, `np.mean([7]) = 7`. -/
theorem stats_reset_counterexample :
    (runLoop ⟨1, 1, 0, 1⟩ (fun _ => [0])
        (fun i => if i = 0 then ⟨3, 3, 3, 3⟩ else ⟨7, 7, 7, 7⟩)
        (fun _ => 1) 2).stats.episode_policy_losses = [3, 7] ∧
      npMeanL [(3 : ℚ), 7] ≠ npMeanL [(7 : ℚ)] := by
  constructor
  · decide
  · norm_num [npMeanL]

/-- C9 amended: the accumulators `_episode_policy_losses`,
`_episode_qf_losses`, `_epoch_ys`, `_epoch_qs` are append-only: a
`train_once` call extends each of them with exactly its own
`optimize_policy` outputs (`n_train_steps` entries on a warm buffer, none on
a cold one) and never clears them, so the statistics recorded at an epoch's
logging cover every optimization step since construction, not only the
current epoch's. -/
theorem stats_append_only (h : Hypers) (outs : ℕ → OptOut) (stored : ℕ)
    (p : ℕ × Stats) :
    ∃ t₁ t₂ t₃ t₄ : List ℚ,
      t₁.length = (if h.min_buffer_size ≤ stored then h.n_train_steps else 0) ∧
      t₂.length = (if h.min_buffer_size ≤ stored then h.n_train_steps else 0) ∧
      t₃.length = (if h.min_buffer_size ≤ stored then h.n_train_steps else 0) ∧
      t₄.length = (if h.min_buffer_size ≤ stored then h.n_train_steps else 0) ∧
      (trainOnce h outs stored p).2.episode_policy_losses =
        p.2.episode_policy_losses ++ t₁ ∧
      (trainOnce h outs stored p).2.episode_qf_losses =
        p.2.episode_qf_losses ++ t₂ ∧
      (trainOnce h outs stored p).2.epoch_ys = p.2.epoch_ys ++ t₃ ∧
      (trainOnce h outs stored p).2.epoch_qs = p.2.epoch_qs ++ t₄ := by
  by_cases hge : h.min_buffer_size ≤ stored
  · obtain ⟨-, t₁, t₂, t₃, t₄, hl₁, hl₂, hl₃, hl₄, hst⟩ :=
      foldlOpt_warm h outs stored hge (List.range h.n_train_steps) p
    have hst' : (trainOnce h outs stored p).2 =
        { episode_policy_losses := p.2.episode_policy_losses ++ t₁
          episode_qf_losses := p.2.episode_qf_losses ++ t₂
          epoch_ys := p.2.epoch_ys ++ t₃
          epoch_qs := p.2.epoch_qs ++ t₄ } := hst
    rw [if_pos hge]
    exact ⟨t₁, t₂, t₃, t₄, by simpa using hl₁, by simpa using hl₂,
      by simpa using hl₃, by simpa using hl₄,
      by rw [hst'], by rw [hst'], by rw [hst'], by rw [hst']⟩
  · rw [trainOnce_cold h outs stored (Nat.lt_of_not_le hge) p, if_neg hge]
    exact ⟨[], [], [], [], rfl, rfl, rfl, rfl, by simp, by simp, by simp,
      by simp⟩

/-- C10: the noise-clip bound used in `optimize_policy` is exactly the
`exploration_policy_clip` constructor argument — the stray local rebinding
`exploration_policy_clip = 0.5,` on line 124 occurs after the attribute
assignment on line 123 and has no effect — and for every (nonnegative) bound
the clipped noise added to a target action lies componentwise in
`[-exploration_policy_clip, exploration_policy_clip]` for every Gaussian
draw. -/
theorem noise_clip_bound (args : ConfigArgs) (x : ℚ) :
    (ddpgInit args).exploration_policy_clip = args.exploration_policy_clip ∧
      (0 ≤ args.exploration_policy_clip →
        -args.exploration_policy_clip ≤
            clippedNoise (ddpgInit args).exploration_policy_clip x ∧
          clippedNoise (ddpgInit args).exploration_policy_clip x ≤
            args.exploration_policy_clip) := by
  refine ⟨rfl, fun h0 => ⟨?_, ?_⟩⟩
  · exact le_min (le_max_right _ _) (neg_le_self h0)
  · exact min_le_right _ _

/-- Witness for C10: the default configuration (`exploration_policy_clip =
1/2`) stores the bound `1/2`, and a concrete draw of `7` is clipped into
`[-1/2, 1/2]`. -/
theorem noise_clip_bound_witness :
    (ddpgInit ⟨20, 50, 1000, 64, 10000, 1/100, 99/100, 1, 1/5,
        1/2⟩).exploration_policy_clip = 1/2 ∧
      -(1/2 : ℚ) ≤ clippedNoise (1/2) 7 ∧ clippedNoise (1/2) 7 ≤ 1/2 := by
  obtain ⟨h1, h2⟩ := noise_clip_bound
    ⟨20, 50, 1000, 64, 10000, 1/100, 99/100, 1, 1/5, 1/2⟩ 7
  obtain ⟨h3, h4⟩ := h2 (by norm_num)
  exact ⟨h1, h3, h4⟩

end GarageDDPG
